import Mathlib

/-!
Shallow embedding of `lib/model/sharedpullerstate.go` and the receive-only
folder revert logic (`Revert`, `deleteQueue`) of the syncthing repository.

Pure state is embedded as Lean structures; Go methods that mutate the
receiver under its mutex become functions from state to state.  Filesystem
and handler calls are modelled by explicit result parameters (the error the
call would return) plus boolean effect flags recording which calls were
made.  Go `int` counters are embedded as `Int` (Go's `/` on integers is
truncated division, `Int.tdiv`), and Go `error` values as `Option Err` with
`none` standing for `nil`.
-/

namespace Syncthing

/-- Go `error` values, `nil` being `none`; `errors.Wrap(err, msg)` is
modelled as prepending `msg ++ ": "`. -/
abbrev Err := String

/-- Function `errors.Wrap` from github.com/pkg/errors: annotates an error with a
message. -/
def errWrap (msg : String) (e : Err) : Err := msg ++ ": " ++ e

/-- The `protocol.FileInfoType` enumeration, reduced to the constructors
this code distinguishes (`IsDirectory`, `IsSymlink`). -/
inductive FileInfoType where
  | file
  | directory
  | symlink
  | other
deriving DecidableEq, Repr

/-- One `(ID, Value)` counter of a `protocol.Vector` version vector. -/
structure Counter where
  id : Nat
  value : Nat
deriving DecidableEq, Repr

/-- Modelled from the spec: `protocol.FileInfo` (the protocol package is
outside the given sources).  Fields are the ones this code reads or writes:
name, type, size, permissions, owner (uid/gid), modification time,
modifying device, deleted flag, version vector, the receive-only
local-change flag (`LocalFlags & FlagLocalReceiveOnly`), and the block
size.  A zero-initialised Go struct literal corresponds to the all-zero /
empty / `false` field values here. -/
structure FileInfo where
  name : String
  typ : FileInfoType
  size : Int
  permissions : Nat
  uid : Int
  gid : Int
  modifiedS : Int
  modifiedNs : Int
  modifiedBy : Nat
  deleted : Bool
  version : List Counter
  localReceiveOnly : Bool
  blockSize : Int
deriving DecidableEq, Repr

/-- Modelled from the spec: `protocol.FileInfo.IsReceiveOnlyChanged`, the
"locally changed under receive-only policy" mark (§4.3 of the spec). -/
def FileInfo.IsReceiveOnlyChanged (fi : FileInfo) : Bool :=
  fi.localReceiveOnly

/-- Modelled from the spec: `protocol.FileInfo.IsDirectory`. -/
def FileInfo.IsDirectory (fi : FileInfo) : Bool :=
  fi.typ = FileInfoType.directory

/-- Modelled from the spec: `protocol.FileInfo.IsSymlink`. -/
def FileInfo.IsSymlink (fi : FileInfo) : Bool :=
  fi.typ = FileInfoType.symlink

/-- Modelled from the spec: `protocol.FileInfo.BlockSize`, the nominal
block size of the file in bytes. -/
def FileInfo.BlockSize (fi : FileInfo) : Int :=
  fi.blockSize

/-- A `protocol.BlockInfo`: offset and size of one content block. -/
structure BlockInfo where
  offset : Int
  size : Int
deriving DecidableEq, Repr

/-- Function `blocksToSize` from sharedpullerstate.go: approximate byte size of
`num` blocks of nominal `size` bytes, counting the final block as half. -/
def blocksToSize (size : Int) (num : Int) : Int :=
  if num < 2 then size.tdiv 2
  else (num - 1) * size + size.tdiv 2

/-- The mutable-plus-immutable state of a `sharedPullerState`.  The two
mutexes and the timestamp fields (`created`, `updated`,
`availableUpdated`) are not represented: locking makes each method an
atomic state transition here, and the timestamps carry no logic. -/
structure SharedPullerState where
  file : FileInfo
  folder : String
  tempName : String
  realName : String
  reused : Int
  ignorePerms : Bool
  hasCurFile : Bool
  sparse : Bool
  err : Option Err
  writer : Option Unit
  copyTotal : Int
  pullTotal : Int
  copyOrigin : Int
  copyOriginShifted : Int
  copyNeeded : Int
  pullNeeded : Int
  closed : Bool
  available : List Int
deriving DecidableEq

namespace SharedPullerState

/-- Method `failLocked`: set the sticky error unless one is already set or the
new error is `nil`. -/
def failLocked (s : SharedPullerState) (e : Option Err) : SharedPullerState :=
  if s.err.isSome || e.isNone then s
  else { s with err := e }

/-- Method `fail`: lock and delegate to `failLocked`. -/
def fail (s : SharedPullerState) (e : Option Err) : SharedPullerState :=
  s.failLocked e

/-- Method `failed`: read the sticky error. -/
def failed (s : SharedPullerState) : Option Err :=
  s.err

/-- Method `copyDone`: one pending copy finished; record the block index as
available.  (Go narrows the index to `int32`; the narrowing is immaterial
here since nothing reads the list numerically.) -/
def copyDone (s : SharedPullerState) (block : BlockInfo) : SharedPullerState :=
  { s with
    copyNeeded := s.copyNeeded - 1
    available := s.available ++ [block.offset.tdiv s.file.BlockSize] }

/-- Method `copiedFromOrigin`: a block was copied from the original file. -/
def copiedFromOrigin (s : SharedPullerState) : SharedPullerState :=
  { s with copyOrigin := s.copyOrigin + 1 }

/-- Method `copiedFromOriginShifted`: a block was copied from the original file
at a shifted position; also counts as an origin copy. -/
def copiedFromOriginShifted (s : SharedPullerState) : SharedPullerState :=
  { s with
    copyOrigin := s.copyOrigin + 1
    copyOriginShifted := s.copyOriginShifted + 1 }

/-- Method `pullStarted`: reclassify one unit of work from copy to pull. -/
def pullStarted (s : SharedPullerState) : SharedPullerState :=
  { s with
    copyTotal := s.copyTotal - 1
    copyNeeded := s.copyNeeded - 1
    pullTotal := s.pullTotal + 1
    pullNeeded := s.pullNeeded + 1 }

/-- Method `pullDone`: one pending pull finished; record the block index as
available. -/
def pullDone (s : SharedPullerState) (block : BlockInfo) : SharedPullerState :=
  { s with
    pullNeeded := s.pullNeeded - 1
    available := s.available ++ [block.offset.tdiv s.file.BlockSize] }

end SharedPullerState

/-- The `pullerProgress` snapshot struct. -/
structure PullerProgress where
  total : Int
  reused : Int
  copiedFromOrigin : Int
  copiedFromOriginShifted : Int
  copiedFromElsewhere : Int
  pulled : Int
  pulling : Int
  bytesDone : Int
  bytesTotal : Int
deriving DecidableEq, Repr

namespace SharedPullerState

/-- The local `total` of `Progress`. -/
def totalOf (s : SharedPullerState) : Int :=
  s.reused + s.copyTotal + s.pullTotal

/-- The local `done` of `Progress`. -/
def doneOf (s : SharedPullerState) : Int :=
  s.totalOf - s.copyNeeded - s.pullNeeded

/-- Method `Progress`: the momentary progress snapshot.  The Go struct literal
does not mention `CopiedFromOriginShifted`, so that field keeps the zero
value. -/
def Progress (s : SharedPullerState) : PullerProgress :=
  { total := s.totalOf
    reused := s.reused
    copiedFromOrigin := s.copyOrigin
    copiedFromOriginShifted := 0
    copiedFromElsewhere := s.copyTotal - s.copyNeeded - s.copyOrigin
    pulled := s.pullTotal - s.pullNeeded
    pulling := s.pullNeeded
    bytesDone := blocksToSize s.file.BlockSize s.doneOf
    bytesTotal := blocksToSize s.file.BlockSize s.totalOf }

end SharedPullerState

/-- Result of `finalClose`: the Go return values `(bool, error)`, the
post-state, and effect flags for the two external calls the method can
make (`writer.SyncClose()` and `fs.Unhide(tempName)`). -/
structure FinalCloseResult where
  didClose : Bool
  err : Option Err
  state : Syncthing.SharedPullerState
  syncCloseCalled : Bool
  unhideCalled : Bool
deriving DecidableEq

namespace SharedPullerState

/-- Method `finalClose`: close and return closed status of the file.
`syncCloseErr` is the error `writer.SyncClose()` would return if the
method reaches that call (ignored otherwise). -/
def finalClose (s : SharedPullerState) (syncCloseErr : Option Err) :
    FinalCloseResult :=
  if s.closed then
    { didClose := false, err := none, state := s
      syncCloseCalled := false, unhideCalled := false }
  else if s.pullNeeded + s.copyNeeded ≠ 0 && s.err.isNone then
    { didClose := false, err := none, state := s
      syncCloseCalled := false, unhideCalled := false }
  else
    let closedWriter := s.writer.isSome
    let s1 :=
      if s.writer.isSome then
        let s0 :=
          if syncCloseErr.isSome && s.err.isNone then
            { s with err := syncCloseErr }
          else s
        { s0 with writer := none }
      else s
    let s2 := { s1 with closed := true }
    { didClose := true, err := s2.err, state := s2
      syncCloseCalled := closedWriter, unhideCalled := true }

end SharedPullerState

/-- Result of `tempFileInWritableDir`: the returned error, the
post-state, and effect flags for `fs.Hide`, `fd.Close()` and
`fs.Remove`. -/
structure TempDirResult where
  err : Option Err
  state : Syncthing.SharedPullerState
  hideCalled : Bool
  fdClosed : Bool
  removeCalled : Bool
deriving DecidableEq

/-- The filesystem responses a single `tempFileInWritableDir` run can
observe: the errors `Chmod`, `Lchown`, `OpenFile`, `Truncate` and
`Remove` would return (each `none` when the call succeeds). -/
structure FsEnv where
  chmodErr : Option Err
  lchownErr : Option Err
  openErr : Option Err
  truncateErr : Option Err
  removeErr : Option Err
deriving DecidableEq

namespace SharedPullerState

/-- Method `tempFileInWritableDir`: create or reopen the temporary file.  The
mode computation (final permissions ORed with 0600, or 0666 under
`ignorePerms`) only parameterises the filesystem calls and is kept as a
local. -/
def tempFileInWritableDir (s : SharedPullerState) (env : FsEnv) :
    TempDirResult :=
  let _mode : Nat := if s.ignorePerms then 438 else s.file.permissions ||| 384
  let afterOpen : TempDirResult :=
    match env.openErr with
    | some e =>
      { err := some (errWrap "opening temp file" e), state := s
        hideCalled := false, fdClosed := false, removeCalled := false }
    | none =>
      if s.sparse && !s.file.IsSymlink then
        match env.truncateErr with
        | some e =>
          if s.reused > 0 then
            { err := some e, state := s
              hideCalled := true, fdClosed := true, removeCalled := true }
          else
            { err := none, state := { s with writer := some () }
              hideCalled := true, fdClosed := false, removeCalled := false }
        | none =>
          { err := none, state := { s with writer := some () }
            hideCalled := true, fdClosed := false, removeCalled := false }
      else
        { err := none, state := { s with writer := some () }
          hideCalled := true, fdClosed := false, removeCalled := false }
  if s.reused ≠ 0 && !s.ignorePerms then
    match env.chmodErr with
    | some e =>
      { err := some (errWrap "setting perms on temp file" e), state := s
        hideCalled := false, fdClosed := false, removeCalled := false }
    | none =>
      match env.lchownErr with
      | some e =>
        { err := some (errWrap "setting owner on temp file" e), state := s
          hideCalled := false, fdClosed := false, removeCalled := false }
      | none => afterOpen
  else afterOpen

end SharedPullerState

/-- Result of `tempFile`: the Go return values `(io.WriterAt, error)`
(the writer reduced to presence), the post-state, and the effects of the
inner creation run. -/
structure TempFileResult where
  writer : Option Unit
  err : Option Err
  state : Syncthing.SharedPullerState
  hideCalled : Bool
  fdClosed : Bool
  removeCalled : Bool
deriving DecidableEq

namespace SharedPullerState

/-- Method `tempFile`: return the shared write handle, creating the temp file on
first call.  `inWritableDir` (outside the given sources; per the spec it
makes the parent directory writable and runs the callback) is modelled as
directly invoking `tempFileInWritableDir`. -/
def tempFile (s : SharedPullerState) (env : FsEnv) : TempFileResult :=
  if s.err.isSome then
    { writer := none, err := s.err, state := s
      hideCalled := false, fdClosed := false, removeCalled := false }
  else if s.writer.isSome then
    { writer := s.writer, err := none, state := s
      hideCalled := false, fdClosed := false, removeCalled := false }
  else
    let r := s.tempFileInWritableDir env
    match r.err with
    | some e =>
      { writer := none, err := some e, state := r.state.failLocked (some e)
        hideCalled := r.hideCalled, fdClosed := r.fdClosed
        removeCalled := r.removeCalled }
    | none =>
      { writer := r.state.writer, err := none, state := r.state
        hideCalled := r.hideCalled, fdClosed := r.fdClosed
        removeCalled := r.removeCalled }

end SharedPullerState

/-- What the ignore matcher reports for one path: ignored, and if so
whether nonetheless deletable (`ignoreresult` of lib/ignore, outside the
given sources, used only through these two predicates). -/
structure IgnoreResult where
  isIgnored : Bool
  isDeletable : Bool
deriving DecidableEq, Repr

/-- Type `deleteQueue` from the receive-only folder file.  The handler
capability (`deleteItemOnDisk`, `deleteDirOnDisk`) and the ignore matcher
are modelled as function fields returning the error each external call
produces (`none` = success); the scan channel carries no logic visible
here and is omitted. -/
structure DeleteQueue where
  deleteItemOnDisk : FileInfo → Option Err
  deleteDirOnDisk : String → Option Err
  ignores : String → IgnoreResult
  dirs : List String

/-- Result of `deleteQueue.handle`: the Go return values `(bool, error)`,
the post-state of the queue, and whether `deleteItemOnDisk` was called. -/
structure HandleResult where
  handled : Bool
  err : Option Err
  queue : DeleteQueue
  deleteItemCalled : Bool

namespace DeleteQueue

/-- Method `handle`: ignore-matched non-deletable paths are untouched,
directories are queued, anything else is deleted immediately. -/
def handle (q : DeleteQueue) (fi : FileInfo) : HandleResult :=
  let ign := q.ignores fi.name
  if ign.isIgnored && !ign.isDeletable then
    { handled := false, err := none, queue := q, deleteItemCalled := false }
  else if fi.IsDirectory then
    { handled := false, err := none
      queue := { q with dirs := q.dirs ++ [fi.name] }
      deleteItemCalled := false }
  else
    { handled := true, err := q.deleteItemOnDisk fi, queue := q
      deleteItemCalled := true }

/-- One step of the loop body of `flush`: accumulate a successfully
deleted dir, or retain the first error. -/
def flushStep (del : String → Option Err)
    (acc : List String × Option Err) (dir : String) :
    List String × Option Err :=
  match del dir with
  | none => (acc.1 ++ [dir], acc.2)
  | some e => (acc.1, if acc.2.isNone then some e else acc.2)

/-- Result of `flush`, with the order in which directories were handed to
`deleteDirOnDisk` kept as a trace. -/
structure FlushResult where
  attempted : List String
  deleted : List String
  firstError : Option Err
deriving DecidableEq, Repr

/-- Method `flush`: sort the queued directories in reverse (descending) string
order (`sort.Sort(sort.Reverse(sort.StringSlice(q.dirs)))`), then delete
each, collecting successes and the first error. -/
def flush (q : DeleteQueue) : FlushResult :=
  let sorted := q.dirs.insertionSort (fun a b => b ≤ a)
  let r := sorted.foldl (flushStep q.deleteDirOnDisk) ([], none)
  { attempted := sorted, deleted := r.1, firstError := r.2 }

end DeleteQueue

/-- The tombstone built in `Revert` for a locally-originated file that
the delete queue reported as handled: the Go struct literal copies
name/type/modification time/owner/permissions, stamps `ModifiedBy` with
the local short ID, sets `Deleted`, and leaves every other field at its
zero value (in particular `Version` is the empty vector). -/
def fileTombstone (shortID : Nat) (fi : FileInfo) : FileInfo :=
  { name := fi.name
    typ := fi.typ
    modifiedS := fi.modifiedS
    modifiedNs := fi.modifiedNs
    modifiedBy := shortID
    deleted := true
    version := []
    gid := fi.gid
    uid := fi.uid
    permissions := fi.permissions
    size := 0
    localReceiveOnly := false
    blockSize := 0 }

/-- Result of one iteration of the `WithHave` callback in `Revert`:
the record appended to the batch (if any), the delete queue afterwards,
and whether `delQueue.handle` / `deleteItemOnDisk` ran. -/
structure RevertStepResult where
  emitted : Option FileInfo
  queue : DeleteQueue
  handleCalled : Bool
  deleteItemCalled : Bool

/-- The body of the `WithHave` callback in `Revert`, for one stored file
record `fi`: skip unflagged records; for flagged records whose version
vector is exactly one counter of the local device, hand them to the
delete queue (batching a tombstone only when handled without error);
otherwise batch the record with an empty version vector and the
receive-only flag cleared. -/
def revertOne (shortID : Nat) (q : DeleteQueue) (fi : FileInfo) :
    RevertStepResult :=
  if !fi.IsReceiveOnlyChanged then
    { emitted := none, queue := q
      handleCalled := false, deleteItemCalled := false }
  else if (match fi.version with
           | [c] => c.id = shortID
           | _ => false : Bool) then
    let r := q.handle fi
    match r.err with
    | some _ =>
      { emitted := none, queue := r.queue
        handleCalled := true, deleteItemCalled := r.deleteItemCalled }
    | none =>
      if r.handled then
        { emitted := some (fileTombstone shortID fi), queue := r.queue
          handleCalled := true, deleteItemCalled := r.deleteItemCalled }
      else
        { emitted := none, queue := r.queue
          handleCalled := true, deleteItemCalled := r.deleteItemCalled }
  else
    { emitted := some { fi with version := [], localReceiveOnly := false }
      queue := q
      handleCalled := false, deleteItemCalled := false }

/-- The record-iteration phase of `Revert`, folded over the stored
records in store order.  Batch flushes to `updateLocalsFromScanning`
(whose size thresholds live outside the given sources) partition this
stream without changing its contents, so the batch is modelled as the
concatenated stream of emitted records. -/
def revertLoop (shortID : Nat) (q0 : DeleteQueue)
    (records : List FileInfo) : List FileInfo × DeleteQueue :=
  records.foldl
    (fun acc fi =>
      let r := revertOne shortID acc.2 fi
      (acc.1 ++ r.emitted.toList, r.queue))
    ([], q0)

/-- The tombstone `Revert` builds for a directory removed by the delete
queue flush: only name, type, `ModifiedS` (the wall clock at the flush),
`ModifiedBy`, `Deleted` and the empty version are set; everything else
keeps the Go zero value. -/
def dirTombstone (shortID : Nat) (nowUnix : Int) (dir : String) : FileInfo :=
  { name := dir
    typ := FileInfoType.directory
    modifiedS := nowUnix
    modifiedBy := shortID
    deleted := true
    version := []
    modifiedNs := 0
    uid := 0
    gid := 0
    permissions := 0
    size := 0
    localReceiveOnly := false
    blockSize := 0 }

/-- The queued-directory phase of `Revert`: flush the delete queue and
batch a directory tombstone for each successfully removed directory. -/
def revertFlushBatch (shortID : Nat) (nowUnix : Int) (q : DeleteQueue) :
    List FileInfo :=
  (q.flush).deleted.map (dirTombstone shortID nowUnix)

/-! Concrete sample values used by witness and counterexample theorems. -/

/-- A sample regular-file record. -/
def sampleFile : FileInfo :=
  { name := "f"
    typ := FileInfoType.file
    size := 100
    permissions := 420
    uid := 0
    gid := 0
    modifiedS := 0
    modifiedNs := 0
    modifiedBy := 1
    deleted := false
    version := [⟨1, 1⟩]
    localReceiveOnly := false
    blockSize := 10 }

/-- A sample tracker state with a nonzero shifted-origin counter and all
pending work finished. -/
def shiftedState : SharedPullerState :=
  { file := sampleFile
    folder := "default"
    tempName := ".syncthing.f.tmp"
    realName := "f"
    reused := 1
    ignorePerms := false
    hasCurFile := false
    sparse := false
    err := none
    writer := none
    copyTotal := 4
    pullTotal := 2
    copyOrigin := 1
    copyOriginShifted := 3
    copyNeeded := 0
    pullNeeded := 0
    closed := false
    available := [] }

/-- A sample tracker state about to create a reused, sparse temp file. -/
def reusedState : SharedPullerState :=
  { shiftedState with reused := 3, sparse := true }

/-- A filesystem environment whose truncate call fails. -/
def truncFailEnv : FsEnv :=
  { chmodErr := none
    lchownErr := none
    openErr := none
    truncateErr := some "no space"
    removeErr := none }

/-- A delete queue whose external calls all succeed and whose matcher
ignores nothing. -/
def sampleQueue : DeleteQueue :=
  { deleteItemOnDisk := fun _ => none
    deleteDirOnDisk := fun _ => none
    ignores := fun _ => { isIgnored := false, isDeletable := false }
    dirs := [] }

/-- A locally-flagged file whose version vector is one counter of device
7. -/
def localFile : FileInfo :=
  { sampleFile with localReceiveOnly := true, version := [⟨7, 1⟩] }

/-! The claim theorems. -/

open SharedPullerState in
/-- C9: for all `size > 0`, `blocksToSize size num` is `size / 2` when
`num < 2` (so `blocksToSize size 0 = size / 2` and
`blocksToSize size 1 = size / 2`) and `(num - 1) * size + size / 2`
otherwise (so `blocksToSize size 5 = 4 * size + size / 2`), with
truncated integer division. -/
theorem C9_blocksToSize_spec (size num : Int) (hsize : 0 < size) :
    (num < 2 → blocksToSize size num = size.tdiv 2) ∧
    (2 ≤ num → blocksToSize size num = (num - 1) * size + size.tdiv 2) ∧
    blocksToSize size 0 = size.tdiv 2 ∧
    blocksToSize size 1 = size.tdiv 2 ∧
    blocksToSize size 5 = 4 * size + size.tdiv 2 := by
  refine ⟨fun h => ?_, fun h => ?_, ?_, ?_, ?_⟩
  · rw [blocksToSize, if_pos h]
  · rw [blocksToSize, if_neg (by omega)]
  · rw [blocksToSize, if_pos (by norm_num)]
  · rw [blocksToSize, if_pos (by norm_num)]
  · rw [blocksToSize, if_neg (by norm_num)]
    ring

/-- C9 witness: evaluated at `size = 10`, `num = 5`. -/
theorem C9_blocksToSize_witness :
    blocksToSize 10 5 = 4 * 10 + (10 : Int).tdiv 2 :=
  (C9_blocksToSize_spec 10 5 (by norm_num)).2.2.2.2

namespace SharedPullerState

/-- C4: the sticky error is write-once: once `err` is non-nil no call to
`fail` changes the state, `fail nil` never sets or overwrites the error
(so the first error is retained by a second `fail`), and `failed` returns
the current sticky error. -/
theorem C4_sticky_error (s : SharedPullerState) (e e2 : Option Err)
    (e1 : Err) :
    (s.err.isSome = true → s.fail e = s) ∧
    s.fail none = s ∧
    (s.err = none → ((s.fail (some e1)).fail e2).err = some e1) ∧
    s.failed = s.err := by
  refine ⟨fun h => ?_, ?_, fun h => ?_, rfl⟩ <;>
    simp [fail, failLocked, failed, *]

/-- C4 witness: a first error survives a second `fail`. -/
theorem C4_sticky_error_witness :
    ((shiftedState.fail (some "boom")).fail (some "later")).err =
      some "boom" :=
  (C4_sticky_error shiftedState none (some "later") "boom").2.2.1 rfl

/-- C5: the snapshot computes `total = reused + copyTotal + pullTotal`
and `done = total - copyNeeded - pullNeeded`; every mutating counter
operation (`copyDone`, `pullDone`, `pullStarted`, and the origin-counter
increments) leaves `total` unchanged, and each of them except
`pullStarted` leaves `done` unchanged or larger, so `done` never
decreases between snapshots without an intervening `pullStarted`. -/
theorem C5_progress_invariant (s : SharedPullerState) (b : BlockInfo) :
    (s.Progress).total = s.reused + s.copyTotal + s.pullTotal ∧
    (s.Progress).bytesDone =
      blocksToSize s.file.BlockSize
        ((s.Progress).total - s.copyNeeded - s.pullNeeded) ∧
    (s.copyDone b).totalOf = s.totalOf ∧
    (s.pullDone b).totalOf = s.totalOf ∧
    (s.copiedFromOrigin).totalOf = s.totalOf ∧
    (s.copiedFromOriginShifted).totalOf = s.totalOf ∧
    (s.pullStarted).totalOf = s.totalOf ∧
    (s.copyDone b).doneOf = s.doneOf + 1 ∧
    (s.pullDone b).doneOf = s.doneOf + 1 ∧
    (s.copiedFromOrigin).doneOf = s.doneOf ∧
    (s.copiedFromOriginShifted).doneOf = s.doneOf ∧
    s.doneOf ≤ (s.copyDone b).doneOf ∧
    s.doneOf ≤ (s.pullDone b).doneOf := by
  refine ⟨?_, ?_, ?_, ?_, ?_, ?_, ?_, ?_, ?_, ?_, ?_, ?_, ?_⟩ <;>
    simp [Progress, totalOf, doneOf, copyDone, pullDone, copiedFromOrigin,
      copiedFromOriginShifted, pullStarted] <;>
    omega

/-- C2 counterexample: on a state whose `copyOriginShifted` counter is 3,
the snapshot's `copiedFromOriginShifted` field is not that counter (the
Go struct literal in `Progress` never assigns it, so it stays 0). -/
theorem C2_progress_shifted_counterexample :
    ¬ (shiftedState.Progress).copiedFromOriginShifted =
        shiftedState.copyOriginShifted := by
  decide

/-- C2 (amended): the snapshot satisfies
`total = reused + copyTotal + pullTotal`,
`copiedFromOrigin = copyOrigin`,
`copiedFromElsewhere = copyTotal - copyNeeded - copyOrigin`,
`pulled = pullTotal - pullNeeded`, `pulling = pullNeeded`,
`bytesTotal = blocksToSize blockSize total` and
`bytesDone = blocksToSize blockSize (total - copyNeeded - pullNeeded)`,
but its `copiedFromOriginShifted` field is always 0: the
`copyOriginShifted` counter (which `copiedFromOriginShifted` increments
together with `copyOrigin`) is not reported by `Progress`. -/
theorem C2_progress_fields (s : SharedPullerState) :
    (s.Progress).total = s.reused + s.copyTotal + s.pullTotal ∧
    (s.Progress).reused = s.reused ∧
    (s.Progress).copiedFromOrigin = s.copyOrigin ∧
    (s.Progress).copiedFromOriginShifted = 0 ∧
    (s.Progress).copiedFromElsewhere =
      s.copyTotal - s.copyNeeded - s.copyOrigin ∧
    (s.Progress).pulled = s.pullTotal - s.pullNeeded ∧
    (s.Progress).pulling = s.pullNeeded ∧
    (s.Progress).bytesTotal =
      blocksToSize s.file.BlockSize (s.reused + s.copyTotal + s.pullTotal) ∧
    (s.Progress).bytesDone =
      blocksToSize s.file.BlockSize
        (s.reused + s.copyTotal + s.pullTotal - s.copyNeeded - s.pullNeeded) ∧
    (s.copiedFromOriginShifted).copyOriginShifted = s.copyOriginShifted + 1 ∧
    (s.copiedFromOriginShifted).copyOrigin = s.copyOrigin + 1 := by
  refine ⟨rfl, rfl, rfl, rfl, rfl, rfl, rfl, rfl, ?_, rfl, rfl⟩
  simp [Progress, totalOf, doneOf]

/-- C1: `finalClose` returns `(false, nil)` with no I/O when the tracker
is already closed, and when `copyNeeded + pullNeeded ≠ 0` with no sticky
error; in every other case it sync-closes any open handle (the close
error becoming the sticky error only if none existed already and never
preventing the close), clears the handle, marks the tracker closed,
unhides the temp file and returns `(true, stickyError)` — after which any
further call returns `false`, so `(true, _)` happens at most once. -/
theorem C1_finalClose_spec (s : SharedPullerState) (scErr scErr2 : Option Err) :
    (s.closed = true →
      s.finalClose scErr =
        { didClose := false, err := none, state := s
          syncCloseCalled := false, unhideCalled := false }) ∧
    (s.closed = false → s.pullNeeded + s.copyNeeded ≠ 0 → s.err = none →
      s.finalClose scErr =
        { didClose := false, err := none, state := s
          syncCloseCalled := false, unhideCalled := false }) ∧
    (s.closed = false →
      (s.pullNeeded + s.copyNeeded = 0 ∨ s.err.isSome = true) →
      (s.finalClose scErr).didClose = true ∧
      (s.finalClose scErr).state.closed = true ∧
      (s.finalClose scErr).state.writer = none ∧
      (s.finalClose scErr).unhideCalled = true ∧
      (s.finalClose scErr).syncCloseCalled = s.writer.isSome ∧
      (s.finalClose scErr).err =
        (if s.err.isSome then s.err
         else if s.writer.isSome then scErr else none) ∧
      (s.finalClose scErr).state.err = (s.finalClose scErr).err ∧
      ((s.finalClose scErr).state.finalClose scErr2).didClose = false) := by
  refine ⟨fun h => ?_, fun h h2 h3 => ?_, fun h h2 => ?_⟩
  · rw [finalClose, if_pos h]
  · rw [finalClose, if_neg (by simp [h]), if_pos (by simp [h2, h3])]
  · rw [finalClose, if_neg (by simp [h]),
      if_neg (by
        rcases h2 with h2 | h2
        · simp [h2]
        · intro hcon
          simp only [Bool.and_eq_true, decide_eq_true_eq,
            Option.isNone_iff_eq_none] at hcon
          rw [hcon.2] at h2
          simp at h2)]
    rcases hw : s.writer with _ | u <;>
      rcases he : s.err with _ | e <;>
        rcases hsc : scErr with _ | e2 <;>
          simp [finalClose, hw, he, hsc]

/-- C1 witness: on an already-closed tracker `finalClose` is a no-op
returning `(false, nil)`. -/
theorem C1_finalClose_witness :
    ({ shiftedState with closed := true } : SharedPullerState).finalClose
        none =
      { didClose := false, err := none
        state := { shiftedState with closed := true }
        syncCloseCalled := false, unhideCalled := false } :=
  (C1_finalClose_spec { shiftedState with closed := true } none none).1 rfl

end SharedPullerState

/-- C8: `deleteQueue.handle` returns `(false, nil)` untouched (no disk
call, queue unchanged) for an ignore-matched path not marked deletable;
returns `(false, nil)` after appending the path to the pending-directory
list for a directory; otherwise deletes immediately via
`deleteItemOnDisk` and returns `(true, err)` with that handler's
result. -/
theorem C8_handle_spec (q : DeleteQueue) (fi : FileInfo) :
    (((q.ignores fi.name).isIgnored && !(q.ignores fi.name).isDeletable) =
        true →
      q.handle fi =
        { handled := false, err := none, queue := q
          deleteItemCalled := false }) ∧
    (((q.ignores fi.name).isIgnored && !(q.ignores fi.name).isDeletable) =
        false →
      fi.IsDirectory = true →
      q.handle fi =
        { handled := false, err := none
          queue := { q with dirs := q.dirs ++ [fi.name] }
          deleteItemCalled := false }) ∧
    (((q.ignores fi.name).isIgnored && !(q.ignores fi.name).isDeletable) =
        false →
      fi.IsDirectory = false →
      q.handle fi =
        { handled := true, err := q.deleteItemOnDisk fi, queue := q
          deleteItemCalled := true }) := by
  refine ⟨fun h => ?_, fun h h2 => ?_, fun h h2 => ?_⟩ <;>
    simp [DeleteQueue.handle, *]

/-- C8 witness: a plain file under a matcher that ignores nothing is
deleted immediately with the handler's (successful) result. -/
theorem C8_handle_witness :
    sampleQueue.handle sampleFile =
      { handled := true, err := none, queue := sampleQueue
        deleteItemCalled := true } :=
  (C8_handle_spec sampleQueue sampleFile).2.2 rfl rfl

instance : IsTotal String (fun a b => b ≤ a) := ⟨fun a b => le_total b a⟩

instance : IsTrans String (fun a b => b ≤ a) :=
  ⟨fun _ _ _ h1 h2 => le_trans h2 h1⟩

/-- Characterisation of the `flush` loop: starting from accumulator
`(acc, fe)`, the fold collects the successfully deleted directories in
attempt order and retains the first error. -/
theorem flushStep_foldl (del : String → Option Err) :
    ∀ (l : List String) (acc : List String) (fe : Option Err),
      l.foldl (DeleteQueue.flushStep del) (acc, fe) =
        (acc ++ l.filter (fun d => (del d).isNone),
         if fe.isSome then fe else (l.filterMap del).head?) := by
  intro l
  induction l with
  | nil =>
    intro acc fe
    cases fe <;> simp
  | cons hd tl ih =>
    intro acc fe
    rw [List.foldl_cons]
    cases hdel : del hd with
    | none =>
      rw [DeleteQueue.flushStep, hdel, ih]
      simp [hdel]
    | some e =>
      rw [DeleteQueue.flushStep, hdel, ih]
      cases fe <;> simp [hdel]

/-- C6: `flush` hands the queued directory paths to `deleteDirOnDisk` in
descending lexicographic order (a sorted permutation of the queue; in
particular queued `["a", "a/b"]` is attempted as `["a/b", "a"]`), returns
exactly the successfully deleted paths, and returns the first deletion
error while still attempting every remaining directory. -/
theorem C6_flush_spec (q : DeleteQueue) :
    (q.flush).attempted.Sorted (fun a b => b ≤ a) ∧
    (q.flush).attempted.Perm q.dirs ∧
    (q.flush).deleted =
      (q.flush).attempted.filter (fun d => (q.deleteDirOnDisk d).isNone) ∧
    (q.flush).firstError =
      ((q.flush).attempted.filterMap q.deleteDirOnDisk).head? ∧
    (q.dirs = ["a", "a/b"] → (q.flush).attempted = ["a/b", "a"]) := by
  refine ⟨?_, ?_, ?_, ?_, fun h => ?_⟩
  · exact List.sorted_insertionSort _ q.dirs
  · exact List.perm_insertionSort _ q.dirs
  · rw [DeleteQueue.flush]
    simp only [flushStep_foldl]
    simp
  · rw [DeleteQueue.flush]
    simp only [flushStep_foldl]
    simp
  · rw [DeleteQueue.flush]
    simp only [h]
    simp [List.insertionSort, List.orderedInsert]
    decide

/-- C6 witness: a queue holding `["a", "a/b"]` attempts `"a/b"` first. -/
theorem C6_flush_witness :
    (({ sampleQueue with dirs := ["a", "a/b"] } : DeleteQueue).flush).attempted =
      ["a/b", "a"] :=
  (C6_flush_spec { sampleQueue with dirs := ["a", "a/b"] }).2.2.2.2 rfl

namespace SharedPullerState

/-- C7: in the creation path, when the sparse pre-sizing truncate fails:
with no reused blocks the failure is ignored and creation succeeds; with
reused blocks the descriptor is closed, the temp file is removed, the
truncate error is surfaced and becomes the sticky error, and every
subsequent `tempFile` call short-circuits with it. -/
theorem C7_truncate_failure (s : SharedPullerState) (env : FsEnv) (e : Err)
    (herr : s.err = none) (hw : s.writer = none)
    (hsp : s.sparse = true) (hsym : s.file.IsSymlink = false)
    (hch : env.chmodErr = none) (hlc : env.lchownErr = none)
    (hop : env.openErr = none) (htr : env.truncateErr = some e) :
    (s.reused = 0 →
      (s.tempFile env).err = none ∧
      (s.tempFile env).writer = some () ∧
      (s.tempFile env).state.err = none ∧
      (s.tempFile env).fdClosed = false ∧
      (s.tempFile env).removeCalled = false) ∧
    (0 < s.reused →
      (s.tempFile env).err = some e ∧
      (s.tempFile env).writer = none ∧
      (s.tempFile env).fdClosed = true ∧
      (s.tempFile env).removeCalled = true ∧
      (s.tempFile env).state.err = some e ∧
      (∀ env2 : FsEnv,
        (s.tempFile env).state.tempFile env2 =
          { writer := none, err := some e
            state := (s.tempFile env).state
            hideCalled := false, fdClosed := false
            removeCalled := false })) := by
  refine ⟨fun h0 => ?_, fun hpos => ?_⟩
  · simp [tempFile, tempFileInWritableDir, failLocked, herr, hw, hsp,
      hsym, hch, hlc, hop, htr, h0]
  · have hne : s.reused ≠ 0 := by omega
    cases hip : s.ignorePerms <;>
      simp [tempFile, tempFileInWritableDir, failLocked, herr, hw, hsp,
        hsym, hch, hlc, hop, htr, hip, hne, hpos]

/-- C7 witness: a reused, sparse tracker whose truncate fails surfaces
the error and closes and removes the temp file. -/
theorem C7_truncate_failure_witness :
    (reusedState.tempFile truncFailEnv).err = some "no space" ∧
    (reusedState.tempFile truncFailEnv).fdClosed = true ∧
    (reusedState.tempFile truncFailEnv).removeCalled = true ∧
    (reusedState.tempFile truncFailEnv).state.err = some "no space" := by
  have h := (C7_truncate_failure reusedState truncFailEnv "no space"
    rfl rfl rfl rfl rfl rfl rfl rfl).2 (by norm_num [reusedState, shiftedState])
  exact ⟨h.1, h.2.2.1, h.2.2.2.1, h.2.2.2.2.1⟩

end SharedPullerState

/-- C3: per locally-known record visited by `Revert`: an unflagged record
is left entirely untouched (not emitted, no delete-queue call, queue
unchanged); a flagged record whose version vector is exactly one counter
of the local device is handed to the delete queue and, when handled as a
file deletion without error, replaced in the batch by a tombstone copying
name/type/modification time/owner/permissions with `deleted = true` and
the empty version vector; a flagged record with any other version vector
is batched with its version vector reset to empty and the receive-only
flag cleared, without any deletion.  The last two conjuncts tie the
single-record step to the batch stream of the iteration loop. -/
theorem C3_revert_classification (shortID : Nat) (q : DeleteQueue)
    (fi : FileInfo) :
    (fi.IsReceiveOnlyChanged = false →
      revertOne shortID q fi =
        { emitted := none, queue := q
          handleCalled := false, deleteItemCalled := false }) ∧
    (fi.IsReceiveOnlyChanged = true →
      ∀ n : Nat, fi.version = [⟨shortID, n⟩] →
      ((q.ignores fi.name).isIgnored && !(q.ignores fi.name).isDeletable) =
        false →
      fi.IsDirectory = false →
      q.deleteItemOnDisk fi = none →
      revertOne shortID q fi =
        { emitted := some (fileTombstone shortID fi), queue := q
          handleCalled := true, deleteItemCalled := true } ∧
      (fileTombstone shortID fi).name = fi.name ∧
      (fileTombstone shortID fi).typ = fi.typ ∧
      (fileTombstone shortID fi).modifiedS = fi.modifiedS ∧
      (fileTombstone shortID fi).modifiedNs = fi.modifiedNs ∧
      (fileTombstone shortID fi).uid = fi.uid ∧
      (fileTombstone shortID fi).gid = fi.gid ∧
      (fileTombstone shortID fi).permissions = fi.permissions ∧
      (fileTombstone shortID fi).deleted = true ∧
      (fileTombstone shortID fi).version = []) ∧
    (fi.IsReceiveOnlyChanged = true →
      (match fi.version with
       | [c] => c.id = shortID
       | _ => false : Bool) = false →
      revertOne shortID q fi =
        { emitted := some { fi with version := [], localReceiveOnly := false }
          queue := q
          handleCalled := false, deleteItemCalled := false }) ∧
    (revertLoop shortID q [fi]).1 = (revertOne shortID q fi).emitted.toList ∧
    (revertLoop shortID q [fi]).2 = (revertOne shortID q fi).queue := by
  refine ⟨fun h => ?_, fun h n hv hign hdir hdel => ?_, fun h hm => ?_,
    ?_, ?_⟩
  · simp [revertOne, h]
  · refine ⟨?_, rfl, rfl, rfl, rfl, rfl, rfl, rfl, rfl, rfl⟩
    simp [revertOne, DeleteQueue.handle, h, hv, hign, hdir, hdel]
  · simp [revertOne, h, hm]
  · simp [revertLoop]
  · simp [revertLoop]

/-- C3 witness: a flagged file whose only version counter is the local
device 7 is deleted and replaced by its tombstone. -/
theorem C3_revert_witness :
    revertOne 7 sampleQueue localFile =
      { emitted := some (fileTombstone 7 localFile), queue := sampleQueue
        handleCalled := true, deleteItemCalled := true } :=
  ((C3_revert_classification 7 sampleQueue localFile).2.1 rfl 1 rfl rfl
    rfl rfl).1

/-- C10: every record batched for the directories removed in the flush
step of `Revert` is a directory tombstone: type directory,
`deleted = true`, empty version vector, `modifiedBy` the local short ID,
`modifiedS` the wall clock of the flush step — and the stored directory
record's modification time, owner and permissions are not copied (`uid`,
`gid`, `permissions` and `modifiedNs` are the zero values). -/
theorem C10_dir_tombstones (shortID : Nat) (nowUnix : Int)
    (q : DeleteQueue) (t : FileInfo)
    (ht : t ∈ revertFlushBatch shortID nowUnix q) :
    t.typ = FileInfoType.directory ∧ t.deleted = true ∧ t.version = [] ∧
    t.modifiedBy = shortID ∧ t.modifiedS = nowUnix ∧ t.modifiedNs = 0 ∧
    t.uid = 0 ∧ t.gid = 0 ∧ t.permissions = 0 ∧
    t.name ∈ (q.flush).deleted := by
  rw [revertFlushBatch] at ht
  obtain ⟨d, hd, rfl⟩ := List.mem_map.1 ht
  exact ⟨rfl, rfl, rfl, rfl, rfl, rfl, rfl, rfl, rfl, hd⟩

/-- C10 witness: with one queued directory `"d"` whose deletion succeeds,
the flush-step batch entry is the directory tombstone stamped with the
flush wall clock. -/
theorem C10_dir_tombstones_witness :
    (dirTombstone 7 100 "d").typ = FileInfoType.directory ∧
    (dirTombstone 7 100 "d").modifiedS = 100 ∧
    (dirTombstone 7 100 "d").version = [] := by
  have h := C10_dir_tombstones 7 100 { sampleQueue with dirs := ["d"] }
    (dirTombstone 7 100 "d") (by decide)
  exact ⟨h.1, h.2.2.2.2.1, h.2.2.1⟩

end Syncthing
